import Mathlib

/-!
Verification development for the workflow-log-to-trace engine of
`telemetry-impls/summarize/send_trace.py` (rapidsai/shared-actions).

Shallow embedding notes:
- Python ints are modelled as `Nat`/`Int`.  Nanosecond timestamps are `Int`.
- Python exceptions that the source does not catch are modelled by
  `Except PyError`; any raised error propagates through the callers, which
  mirrors the absence of try/except blocks around the modelled code.
- `datetime.strptime(s, "%Y-%m-%dT%H:%M:%SZ").replace(tzinfo=utc).timestamp()`
  is modelled by `parseTimestamp`, which accepts exactly the ASCII strings the
  CPython `_strptime` regex accepts for this format (4-digit year, 1-2 digit
  month/day/hour/minute/second fields separated by the literal characters, a
  final `Z`, full match, the `T`/`Z` literals case-insensitive because the
  format regex carries `re.IGNORECASE`) followed by the `datetime` range checks
  (year >= 1, valid calendar date, hour <= 23, minute <= 59, second <= 59).
  `int(ts * 1e9)` is modelled as exact multiplication by 10^9: for dates in the
  range GitHub can emit (far below year 2116) `seconds * 5^9 < 2^53`, so the
  float product is exact and truncation is the identity.
- Filesystem access (artifact folders, attrs files, sccache stats globbing)
  is passed in as explicit data: a file is its list of lines.
- Span attribute enrichment (sccache attribute dictionaries attached to build
  steps) does not influence span timing, emission, status, or identifiers, and
  is elided from the `Span` record.
-/

/-- Uncaught Python exception kinds relevant to the modelled code paths. -/
inductive PyError
  | valueError
  | keyError
  | indexError
deriving DecidableEq

/-- OpenTelemetry `StatusCode` values used by the source. -/
inductive StatusCode
  | UNSET
  | OK
  | ERROR
deriving DecidableEq

/-! ## Timestamp normalizer (`date_str_to_epoch`, lines 77-88) -/

/-- Proleptic-Gregorian leap-year test, as used by `datetime`. -/
def isLeap (y : Nat) : Bool :=
  y % 4 = 0 && (y % 100 != 0 || y % 400 = 0)

/-- Length of month `m` (1-12) in year `y`. -/
def daysInMonth (y m : Nat) : Nat :=
  if m = 2 then (if isLeap y then 29 else 28)
  else if m = 4 ∨ m = 6 ∨ m = 9 ∨ m = 11 then 30
  else 31

/-- Days in all years before year `y` (y >= 1), proleptic Gregorian. -/
def daysBeforeYear (y : Nat) : Nat :=
  365 * (y - 1) + (y - 1) / 4 - (y - 1) / 100 + (y - 1) / 400

/-- Days in year `y` before month `m`. -/
def daysBeforeMonth (y m : Nat) : Nat :=
  (List.range (m - 1)).foldl (fun acc i => acc + daysInMonth y (i + 1)) 0

/-- Day number with 0001-01-01 as day 1 (`datetime.toordinal()`). -/
def toOrdinal (y m d : Nat) : Nat :=
  daysBeforeYear y + daysBeforeMonth y m + d

/-- Seconds since the Unix epoch of a UTC civil datetime. -/
def epochSecsOf (y m d h mi s : Nat) : Int :=
  ((toOrdinal y m d : Int) - (toOrdinal 1970 1 1 : Int)) * 86400
    + (h : Int) * 3600 + (mi : Int) * 60 + (s : Int)

/-- Digit run at the front of a char list, and the remainder. -/
def digitSpan (cs : List Char) : List Char × List Char :=
  (cs.takeWhile Char.isDigit, cs.dropWhile Char.isDigit)

/-- Numeric value of a digit run. -/
def digitsToNat (ds : List Char) : Nat :=
  ds.foldl (fun a c => a * 10 + (c.toNat - 48)) 0

/-- Model of `datetime.strptime(s, "%Y-%m-%dT%H:%M:%SZ")` followed by
`.replace(tzinfo=timezone.utc).timestamp()`, returning whole seconds since the
epoch, or `none` when strptime/datetime raises `ValueError`.  CPython's
`_strptime` compiles the format regex with `re.IGNORECASE`, so the `T` and `Z`
format literals also match lowercase `t`/`z`; the digit fields and the
`-`/`:` separators are unaffected by the flag.  The model is exact over ASCII
strings; CPython's `\d` would additionally accept non-ASCII Unicode decimal
digits, which GitHub timestamps never contain. -/
def parseTimestamp (str : String) : Option Int :=
  let (ys, r1) := digitSpan str.data
  if ys.length ≠ 4 then none else
  match r1 with
  | '-' :: r2 =>
    let (ms, r3) := digitSpan r2
    if ms.length = 0 ∨ 2 < ms.length then none else
    match r3 with
    | '-' :: r4 =>
      let (ds, r5) := digitSpan r4
      if ds.length = 0 ∨ 2 < ds.length then none else
      match r5 with
      | cT :: r6 =>
        if cT.toLower ≠ 't' then none else
        let (hs, r7) := digitSpan r6
        if hs.length = 0 ∨ 2 < hs.length then none else
        match r7 with
        | ':' :: r8 =>
          let (mis, r9) := digitSpan r8
          if mis.length = 0 ∨ 2 < mis.length then none else
          match r9 with
          | ':' :: r10 =>
            let (ss, r11) := digitSpan r10
            if ss.length = 0 ∨ 2 < ss.length then none else
            match r11 with
            | [cZ] =>
              if cZ.toLower ≠ 'z' then none else
              let y := digitsToNat ys
              let mo := digitsToNat ms
              let d := digitsToNat ds
              let h := digitsToNat hs
              let mi := digitsToNat mis
              let s := digitsToNat ss
              if 1 ≤ y ∧ 1 ≤ mo ∧ mo ≤ 12 ∧ 1 ≤ d ∧ d ≤ daysInMonth y mo
                  ∧ h ≤ 23 ∧ mi ≤ 59 ∧ s ≤ 59 then
                some (epochSecsOf y mo d h mi s)
              else none
            | _ => none
          | _ => none
        | _ => none
      | _ => none
    | _ => none
  | _ => none

/-- Model of `date_str_to_epoch` (lines 77-88).  The input may be a JSON string, the
empty string, or JSON null (`none`); both falsy values take the fallback.
`value_if_not_set or 0` is the identity on the integer fallbacks every caller
passes.  A non-empty string that strptime rejects raises an uncaught
`ValueError` (there is no try/except in the source). -/
def date_str_to_epoch (dateStr : Option String) (value_if_not_set : Int) :
    Except PyError Int :=
  match dateStr with
  | none => .ok value_if_not_set
  | some s =>
    if s = "" then .ok value_if_not_set
    else
      match parseTimestamp s with
      | some secs => .ok (secs * 1000000000)
      | none => .error .valueError

/-! ## Status mapper (`map_conclusion_to_status_code`, lines 91-97) -/

/-- Model of `map_conclusion_to_status_code`.  The runtime value may be a string or
JSON null, so the argument is `Option String`; Python `==` against a string
literal is false for `None`. -/
def map_conclusion_to_status_code (conclusion : Option String) : StatusCode :=
  if conclusion = some "success" then .OK
  else if conclusion = some "failure" then .ERROR
  else .UNSET

/-! ## SHA-256 (as used by `hashlib.sha256`), over byte lists -/

/-- The word modulus 2^32. -/
def M32 : Nat := 4294967296

/-- Addition modulo 2^32. -/
def add32 (a b : Nat) : Nat := (a + b) % M32

/-- Right rotation of a 32-bit word by `n` places. -/
def rotr32 (n x : Nat) : Nat :=
  (x / 2 ^ n + x % 2 ^ n * 2 ^ (32 - n)) % M32

/-- Bitwise complement within 32 bits. -/
def not32 (x : Nat) : Nat := Nat.xor x (M32 - 1)

def ch32 (e f g : Nat) : Nat :=
  Nat.xor (Nat.land e f) (Nat.land (not32 e) g)

def maj32 (a b c : Nat) : Nat :=
  Nat.xor (Nat.xor (Nat.land a b) (Nat.land a c)) (Nat.land b c)

def bigSigma0 (x : Nat) : Nat :=
  Nat.xor (Nat.xor (rotr32 2 x) (rotr32 13 x)) (rotr32 22 x)

def bigSigma1 (x : Nat) : Nat :=
  Nat.xor (Nat.xor (rotr32 6 x) (rotr32 11 x)) (rotr32 25 x)

def smallSigma0 (x : Nat) : Nat :=
  Nat.xor (Nat.xor (rotr32 7 x) (rotr32 18 x)) (x / 2 ^ 3)

def smallSigma1 (x : Nat) : Nat :=
  Nat.xor (Nat.xor (rotr32 17 x) (rotr32 19 x)) (x / 2 ^ 10)

/-- SHA-256 round constants. -/
def K256 : List Nat := [
  1116352408, 1899447441, 3049323471, 3921009573,
  961987163, 1508970993, 2453635748, 2870763221,
  3624381080, 310598401, 607225278, 1426881987,
  1925078388, 2162078206, 2614888103, 3248222580,
  3835390401, 4022224774, 264347078, 604807628,
  770255983, 1249150122, 1555081692, 1996064986,
  2554220882, 2821834349, 2952996808, 3210313671,
  3336571891, 3584528711, 113926993, 338241895,
  666307205, 773529912, 1294757372, 1396182291,
  1695183700, 1986661051, 2177026350, 2456956037,
  2730485921, 2820302411, 3259730800, 3345764771,
  3516065817, 3600352804, 4094571909, 275423344,
  430227734, 506948616, 659060556, 883997877,
  958139571, 1322822218, 1537002063, 1747873779,
  1955562222, 2024104815, 2227730452, 2361852424,
  2428436474, 2756734187, 3204031479, 3329325298]

/-- Working state / hash state: eight 32-bit words. -/
structure Hash8 where
  w0 : Nat
  w1 : Nat
  w2 : Nat
  w3 : Nat
  w4 : Nat
  w5 : Nat
  w6 : Nat
  w7 : Nat
deriving DecidableEq

/-- SHA-256 initial hash value. -/
def initH : Hash8 :=
  ⟨1779033703, 3144134277, 1013904242, 2773480762,
   1359893119, 2600822924, 528734635, 1541459225⟩

/-- One compression round. -/
def roundStep (st : Hash8) (k w : Nat) : Hash8 :=
  let t1 := add32 st.w7 (add32 (bigSigma1 st.w4) (add32 (ch32 st.w4 st.w5 st.w6) (add32 k w)))
  let t2 := add32 (bigSigma0 st.w0) (maj32 st.w0 st.w1 st.w2)
  ⟨add32 t1 t2, st.w0, st.w1, st.w2, add32 st.w3 t1, st.w4, st.w5, st.w6⟩

/-- Big-endian 32-bit words from bytes (4 at a time). -/
def bytesToWords : List Nat → List Nat
  | b0 :: b1 :: b2 :: b3 :: rest =>
    (((b0 * 256 + b1) * 256 + b2) * 256 + b3) :: bytesToWords rest
  | _ => []

/-- Appends the next word of the message schedule. -/
def scheduleStep (w : List Nat) : List Nat :=
  let n := w.length
  w ++ [add32 (add32 (smallSigma1 (w.getD (n - 2) 0)) (w.getD (n - 7) 0))
          (add32 (smallSigma0 (w.getD (n - 15) 0)) (w.getD (n - 16) 0))]

/-- Extends the 16 block words to the 64-entry schedule. -/
def fullSchedule (w16 : List Nat) : List Nat :=
  (List.range 48).foldl (fun w _ => scheduleStep w) w16

/-- Compression of one 64-byte block into the hash state. -/
def sha256Compress (h : Hash8) (block : List Nat) : Hash8 :=
  let w := fullSchedule (bytesToWords block)
  let st := (K256.zip w).foldl (fun st kw => roundStep st kw.1 kw.2) h
  ⟨add32 h.w0 st.w0, add32 h.w1 st.w1, add32 h.w2 st.w2, add32 h.w3 st.w3,
   add32 h.w4 st.w4, add32 h.w5 st.w5, add32 h.w6 st.w6, add32 h.w7 st.w7⟩

/-- SHA-256 padding: 0x80, zeros to 56 mod 64, then the 64-bit bit length. -/
def padMessage (msg : List Nat) : List Nat :=
  let L := msg.length
  let zeros := (119 - L % 64) % 64
  let bitLen := 8 * L
  msg ++ [128] ++ List.replicate zeros 0 ++
    [bitLen / 2 ^ 56 % 256, bitLen / 2 ^ 48 % 256, bitLen / 2 ^ 40 % 256, bitLen / 2 ^ 32 % 256,
     bitLen / 2 ^ 24 % 256, bitLen / 2 ^ 16 % 256, bitLen / 2 ^ 8 % 256, bitLen % 256]

/-- Folds all 64-byte blocks into the state. -/
def processBlocks (h : Hash8) : List Nat → Hash8
  | [] => h
  | x :: rest => processBlocks (sha256Compress h ((x :: rest).take 64)) ((x :: rest).drop 64)
termination_by l => l.length
decreasing_by simp [List.length_drop]; omega

/-- Big-endian bytes of a 32-bit word. -/
def wordBytes (w : Nat) : List Nat :=
  [w / 2 ^ 24 % 256, w / 2 ^ 16 % 256, w / 2 ^ 8 % 256, w % 256]

/-- The 32 digest bytes of a hash state. -/
def digestBytes (h : Hash8) : List Nat :=
  wordBytes h.w0 ++ wordBytes h.w1 ++ wordBytes h.w2 ++ wordBytes h.w3 ++
  wordBytes h.w4 ++ wordBytes h.w5 ++ wordBytes h.w6 ++ wordBytes h.w7

/-- SHA-256 digest (32 bytes) of a byte-list message. -/
def sha256 (msg : List Nat) : List Nat :=
  digestBytes (processBlocks initH (padMessage msg))

/-! ## Hex rendering/parsing (`hexdigest`, `int(_, 16)`) -/

/-- Lowercase hex digit for a value below 16. -/
def hexChar (n : Nat) : Char :=
  if n < 10 then Char.ofNat (48 + n) else Char.ofNat (87 + n)

/-- Two lowercase hex digits of one byte. -/
def byteHex (b : Nat) : List Char :=
  [hexChar (b / 16 % 16), hexChar (b % 16)]

/-- Lowercase `hexdigest()`-style rendering of a byte list. -/
def renderHex (bs : List Nat) : String :=
  ⟨bs.flatMap byteHex⟩

/-- Value of one lowercase hex digit. -/
def hexVal (c : Char) : Nat :=
  if c.isDigit then c.toNat - 48 else c.toNat - 87

def hexToNatAux : Nat → List Char → Nat
  | acc, [] => acc
  | acc, c :: cs => hexToNatAux (acc * 16 + hexVal c) cs

/-- Model of `int(s, 16)` on a lowercase hex string (as produced by `hexdigest`). -/
def hexToNat (cs : List Char) : Nat := hexToNatAux 0 cs

/-- Recognizer for the lowercase hex alphabet. -/
def isLowerHexDigit (c : Char) : Bool :=
  "0123456789abcdef".data.contains c

/-! ## UTF-8 encoding (`str.encode()`) -/

/-- UTF-8 byte sequence of one code point. -/
def utf8EncodeCharNat (n : Nat) : List Nat :=
  if n < 128 then [n]
  else if n < 2048 then [192 + n / 64, 128 + n % 64]
  else if n < 65536 then [224 + n / 4096, 128 + n / 64 % 64, 128 + n % 64]
  else [240 + n / 262144, 128 + n / 4096 % 64, 128 + n / 64 % 64, 128 + n % 64]

/-- UTF-8 bytes of a string (`s.encode()`). -/
def strBytes (s : String) : List Nat :=
  s.data.flatMap (fun c => utf8EncodeCharNat c.toNat)

/-! ## Deterministic identity generator (`RapidsSpanIdGenerator`, lines 100-134) -/

/-- The mutable generator state: the trace id fixed at construction and the
current job/step names set through the update methods.  `step_name` starts as
`None` (`none` here) and may later hold any string. -/
structure RapidsSpanIdGenerator where
  trace_id : Nat
  job_name : String
  step_name : Option String
deriving DecidableEq

/-- Model of `update_job_name` (lines 109-112). -/
def update_job_name (g : RapidsSpanIdGenerator) (jobName : String) : RapidsSpanIdGenerator :=
  ⟨g.trace_id, jobName, g.step_name⟩

/-- Model of `update_step_name` (lines 114-117). -/
def update_step_name (g : RapidsSpanIdGenerator) (stepName : String) : RapidsSpanIdGenerator :=
  ⟨g.trace_id, g.job_name, some stepName⟩

/-- Model of `generate_span_id` (lines 119-130): sha256 over `str(trace_id)`, the job
name, and - when truthy - the step name; the first 16 hex digits of the
digest parsed as an integer. -/
def generate_span_id (g : RapidsSpanIdGenerator) : Nat :=
  let input := strBytes (toString g.trace_id) ++ strBytes g.job_name ++
    (match g.step_name with
     | some s => if s = "" then [] else strBytes s
     | none => [])
  hexToNat (((renderHex (sha256 input)).data).take 16)

/-- Model of `generate_trace_id` (lines 132-134). -/
def generate_trace_id (g : RapidsSpanIdGenerator) : Nat :=
  g.trace_id

/-- Modelled from the spec: the trace-id derivation of §4.2 ("first 16 bytes
of SHA-256(run_url + \"+\" + run_attempt), rendered as 32 hex characters").
The script that performs this derivation (the traceparent generation helper
feeding the `TRACEPARENT` value that line 361 of send_trace.py parses) is not
among the provided source files, so it is modelled from the spec's words. -/
def traceIdHexStr (runUrl runAttempt : String) : String :=
  renderHex ((sha256 (strBytes (runUrl ++ "+" ++ runAttempt))).take 16)

/-! ## Record model and span tree builder (`process_job_blob`/`main`) -/

/-- One step record of the input document.  Timestamp fields and the
conclusion may be JSON null (`none`) or strings (possibly empty). -/
structure Step where
  name : String
  started_at : Option String
  completed_at : Option String
  conclusion : Option String
deriving DecidableEq

/-- One job record of the input document. -/
structure Job where
  name : String
  id : Nat
  created_at : Option String
  started_at : Option String
  completed_at : Option String
  conclusion : Option String
  steps : List Step
deriving DecidableEq

/-- An emitted span: name, nanosecond interval, status.  Trace/span ids are
handled by `RapidsSpanIdGenerator`; attributes are elided (see header). -/
structure Span where
  name : String
  start_time : Int
  end_time : Int
  status : StatusCode
deriving DecidableEq

/-- The spans emitted while processing one job: the always-emitted start-delay
span, the step spans in input order, and the enclosing job span (ended last,
at the final job watermark). -/
structure JobSpans where
  delaySpan : Span
  stepSpans : List Span
  jobSpan : Span
deriving DecidableEq

/-- The chars before and after the first occurrence of `sep`. -/
def splitFirstChar (sep : Char) : List Char → List Char × List Char
  | [] => ([], [])
  | c :: rest =>
    if c = sep then ([], rest)
    else
      let p := splitFirstChar sep rest
      (c :: p.1, p.2)

/-- Python whitespace for `str.strip()` and the `\s` class. -/
def isPySpace (c : Char) : Bool :=
  c = ' ' || c = '\t' || c = '\n' || c = '\x0d' || c = '\x0b' || c = '\x0c'

/-- Python `str.strip()`: drop whitespace from both ends. -/
def pyStrip (s : String) : String :=
  ⟨((s.data.dropWhile isPySpace).reverse.dropWhile isPySpace).reverse⟩

/-- The display name of the job span: `matrix_part or job["name"]` after
splitting on the first "/" and stripping (lines 242-247 and 282). -/
def jobSpanName (name : String) : String :=
  if name.data.contains '/' then
    let matrixPart := pyStrip ⟨(splitFirstChar '/' name.data).2⟩
    if matrixPart = "" then name else matrixPart
  else name

/-- The body of the per-step loop (lines 294-334): resolve the step interval
against the running job watermark, advance the watermark, and emit a span
exactly when `(step_end - step_start) / 1e9 > 1`.  On integer nanosecond
differences that float comparison is `step_end - step_start > 10^9`. -/
def processOneStep (step : Step) (jl : Int) : Except PyError (Option Span × Int) :=
  match date_str_to_epoch step.started_at jl with
  | .error e => .error e
  | .ok stepStart =>
    match date_str_to_epoch step.completed_at stepStart with
    | .error e => .error e
    | .ok stepEnd =>
      if stepEnd - stepStart > 1000000000 then
        .ok (some ⟨step.name, stepStart, stepEnd, map_conclusion_to_status_code step.conclusion⟩,
             max stepEnd jl)
      else
        .ok (none, max stepEnd jl)

/-- The step loop: emitted step spans in order and the final job watermark. -/
def processSteps : List Step → Int → Except PyError (List Span × Int)
  | [], jl => .ok ([], jl)
  | step :: rest, jl =>
    match processOneStep step jl with
    | .error e => .error e
    | .ok (os, jl1) =>
      match processSteps rest jl1 with
      | .error e => .error e
      | .ok (spans, jl2) => .ok (os.toList ++ spans, jl2)

/-- Model of `process_job_blob` (lines 227-337).  Returns the spans emitted for the job
(`none` when the job is skipped) together with the function's return value -
which is the `last_timestamp` argument on every path.  Attribute/sccache
artifact handling is elided (it only contributes span attributes). -/
def process_job_blob (serviceName : String) (job : Job)
    (first_timestamp last_timestamp : Int) :
    Except PyError (Option JobSpans × Int) :=
  if job.name = serviceName then .ok (none, last_timestamp)
  else
    match date_str_to_epoch job.created_at first_timestamp with
    | .error e => .error e
    | .ok jobCreate =>
      match date_str_to_epoch job.started_at first_timestamp with
      | .error e => .error e
      | .ok jobStart =>
        match date_str_to_epoch job.completed_at jobStart with
        | .error e => .error e
        | .ok jobLast0 =>
          if jobStart = 0 then .ok (none, last_timestamp)
          else
            match processSteps job.steps jobLast0 with
            | .error e => .error e
            | .ok (stepSpans, jobLast) =>
              .ok (some ⟨⟨"Start delay time", jobCreate, jobStart, .UNSET⟩,
                         stepSpans,
                         ⟨jobSpanName job.name, jobCreate, jobLast,
                          map_conclusion_to_status_code job.conclusion⟩⟩,
                   last_timestamp)

/-- The job loop of `main` (lines 374-381): thread `last_timestamp` through
`process_job_blob` for each job, collecting every emitted `JobSpans`. -/
def runJobs (serviceName : String) (first_timestamp : Int) :
    List Job → Int → Except PyError (List JobSpans × Int)
  | [], lt => .ok ([], lt)
  | job :: rest, lt =>
    match process_job_blob serviceName job first_timestamp lt with
    | .error e => .error e
    | .ok (ojs, lt1) =>
      match runJobs serviceName first_timestamp rest lt1 with
      | .error e => .error e
      | .ok (jss, lt2) => .ok (ojs.toList ++ jss, lt2)

/-- Model of `main` (lines 340-383), restricted to the span tree construction: read the
job list (empty list raises `IndexError` at `jobs[0]`), seed the root interval
from the first job, process every job, and end the root span at the final
`last_timestamp`.  Environment/attribute-folder handling is elided; the
configured service name is a parameter. -/
def mainRun (serviceName : String) (jobs : List Job) :
    Except PyError (List JobSpans × Span) :=
  match jobs with
  | [] => .error .indexError
  | j0 :: _ =>
    match date_str_to_epoch j0.created_at 0 with
    | .error e => .error e
    | .ok first_timestamp =>
      match date_str_to_epoch j0.completed_at 0 with
      | .error e => .error e
      | .ok last0 =>
        match runJobs serviceName first_timestamp jobs last0 with
        | .error e => .error e
        | .ok (jss, ltF) =>
          .ok (jss, ⟨"Top-level workflow root", first_timestamp, ltF, .UNSET⟩)

/-! ## Attribute file parsing (`parse_attributes`, lines 59-74) -/

/-- Python `str.strip` with a quote argument: drop double quotes from both ends. -/
def stripQuotes (s : String) : String :=
  ⟨((s.data.dropWhile (· = '"')).reverse.dropWhile (· = '"')).reverse⟩

/-- Model of `key, value = attr.split("=", 1)`: unpacking raises `ValueError` when the
line has no `=`. -/
def splitEqLine (line : String) : Except PyError (String × String) :=
  if line.data.contains '=' then
    let p := splitFirstChar '=' line.data
    .ok (⟨p.1⟩, ⟨p.2⟩)
  else .error .valueError

/-- Dict insertion: overwrite an existing key, else append. -/
def upsert (m : List (String × String)) (k v : String) : List (String × String) :=
  if m.any (fun p => p.1 = k) then m.map (fun p => if p.1 = k then (k, v) else p)
  else m ++ [(k, v)]

/-- The line loop of `parse_attributes` over an accumulated dict. -/
def parseAttrLinesAux (acc : List (String × String)) :
    List String → Except PyError (List (String × String))
  | [] => .ok acc
  | line :: rest =>
    match splitEqLine line with
    | .error e => .error e
    | .ok (k, v) => parseAttrLinesAux (upsert acc k (stripQuotes (pyStrip v))) rest

/-- Model of `parse_attributes` applied to the lines of an attribute file. -/
def parse_attributes (lines : List String) : Except PyError (List (String × String)) :=
  parseAttrLinesAux [] lines

/-! ## Cache statistics (`Compiler`/`SccacheStats`, lines 137-200) -/

/-- The per-language counter dataclass (defaults 0). -/
structure Compiler where
  hits : Nat
  misses : Nat
  errors : Nat
deriving DecidableEq

/-- The `Compiler.requests` property. -/
def Compiler.requests (c : Compiler) : Nat :=
  c.hits + c.misses + c.errors

/-- The `Compiler.hit_rate` property: guarded float division, modelled over the rationals
(the zero branch returns the exact integer 0 in both models). -/
def Compiler.hit_rate (c : Compiler) : ℚ :=
  if c.requests > 0 then (c.hits : ℚ) / (c.requests : ℚ) else 0

def Compiler.miss_rate (c : Compiler) : ℚ :=
  if c.requests > 0 then (c.misses : ℚ) / (c.requests : ℚ) else 0

def Compiler.error_rate (c : Compiler) : ℚ :=
  if c.requests > 0 then (c.errors : ℚ) / (c.requests : ℚ) else 0

/-- Aggregate stats of one file: the parsed `Compile requests` count and the
per-language compiler dict (an association list). -/
structure SccacheStats where
  requests : Nat
  compilers : List (String × Compiler)
deriving DecidableEq

def SccacheStats.hits (st : SccacheStats) : Nat :=
  (st.compilers.map (fun p => p.2.hits)).sum

def SccacheStats.misses (st : SccacheStats) : Nat :=
  (st.compilers.map (fun p => p.2.misses)).sum

def SccacheStats.errors (st : SccacheStats) : Nat :=
  (st.compilers.map (fun p => p.2.errors)).sum

def SccacheStats.hit_rate (st : SccacheStats) : ℚ :=
  if st.requests > 0 then (st.hits : ℚ) / (st.requests : ℚ) else 0

def SccacheStats.miss_rate (st : SccacheStats) : ℚ :=
  if st.requests > 0 then (st.misses : ℚ) / (st.requests : ℚ) else 0

def SccacheStats.error_rate (st : SccacheStats) : ℚ :=
  if st.requests > 0 then (st.errors : ℚ) / (st.requests : ℚ) else 0

/-! ## Sccache stats file parsing (`get_sccache_stats`, lines 203-224) -/

/-- The dict literal of line 211: counters exist only for c, cpp, cuda. -/
def initCompilers : List (String × Compiler) :=
  [("c", ⟨0, 0, 0⟩), ("cpp", ⟨0, 0, 0⟩), ("cuda", ⟨0, 0, 0⟩)]

/-- Python `\w` (ASCII range; the stats lines are ASCII). -/
def isWordChar (c : Char) : Bool :=
  c.isAlphanum || c = '_'

/-- Case-sensitive literal prefix match; returns the remainder. -/
def expectLit : List Char → List Char → Option (List Char)
  | [], cs => some cs
  | _ :: _, [] => none
  | p :: ps, c :: cs => if c = p then expectLit ps cs else none

/-- Case-insensitive literal prefix match (`re.IGNORECASE`). -/
def expectCI : List Char → List Char → Option (List Char)
  | [], cs => some cs
  | _ :: _, [] => none
  | p :: ps, c :: cs => if c.toLower = p then expectCI ps cs else none

/-- Pattern text `Cache ` of the language-line regex. -/
def cachePat : List Char := ['C', 'a', 'c', 'h', 'e', ' ']

/-- Pattern text `compile` (matched case-insensitively). -/
def compilePat : List Char := ['c', 'o', 'm', 'p', 'i', 'l', 'e']

/-- Pattern text `requests` (matched case-insensitively). -/
def requestsPat : List Char := ['r', 'e', 'q', 'u', 'e', 's', 't', 's']

/-- Matcher for `\s+(\d+)`: at least one whitespace, then a digit run. -/
def spacesThenDigits (cs : List Char) : Option Nat :=
  match cs with
  | c :: rest =>
    if isPySpace c then
      let r := rest.dropWhile isPySpace
      let ds := r.takeWhile Char.isDigit
      if ds = [] then none else some (digitsToNat ds)
    else none
  | [] => none

/-- Model of `re.match(r"^Compile\srequests\s+(\d+).*", line, re.IGNORECASE)`:
the captured request count, or `none` when the line does not match. -/
def parseCompileRequestsLine (line : String) : Option Nat :=
  match expectCI compilePat line.data with
  | none => none
  | some r0 =>
    match r0 with
    | c :: r1 =>
      if isPySpace c then
        match expectCI requestsPat r1 with
        | none => none
        | some r2 => spacesThenDigits r2
      else none
    | [] => none

/-- Model of `re.compile(r"Cache (?P<result>\w+) \((?P<lang>\w+)[^)]*\)\s*(?P<count>\d+)")`
applied with `.match` (anchored prefix): the captured result word, language
word, and count. -/
def parseCacheLine (line : String) : Option (String × String × Nat) :=
  match expectLit cachePat line.data with
  | none => none
  | some r0 =>
    let res := r0.takeWhile isWordChar
    let r1 := r0.dropWhile isWordChar
    if res = [] then none else
    match r1 with
    | ' ' :: '(' :: r2 =>
      let langChars := r2.takeWhile isWordChar
      let r3 := r2.dropWhile isWordChar
      if langChars = [] then none else
      match r3.dropWhile (fun c => c ≠ ')') with
      | ')' :: r5 =>
        let r6 := r5.dropWhile isPySpace
        let ds := r6.takeWhile Char.isDigit
        if ds = [] then none
        else some (⟨res⟩, ⟨langChars⟩, digitsToNat ds)
      | _ => none
    | _ => none

/-- Dict lookup `stats.compilers[lang]`; `none` models `KeyError`. -/
def lookupCompiler (m : List (String × Compiler)) (k : String) : Option Compiler :=
  (m.find? (fun p => p.1 = k)).map (fun p => p.2)

/-- Model of `setattr(compiler, result, count)`: the three declared counters are
assignable; any other `\w+` result word would create an unrelated attribute,
invisible to the counters, so the record is returned unchanged. -/
def setCompilerField (c : Compiler) (field : String) (n : Nat) : Compiler :=
  if field = "hits" then ⟨n, c.misses, c.errors⟩
  else if field = "misses" then ⟨c.hits, n, c.errors⟩
  else if field = "errors" then ⟨c.hits, c.misses, n⟩
  else c

/-- Replace the value stored under key `k` (keys are unchanged). -/
def updateCompiler (m : List (String × Compiler)) (k : String) (c : Compiler) :
    List (String × Compiler) :=
  m.map (fun p => if p.1 = k then (p.1, c) else p)

/-- The body of the stats-file line loop (lines 212-217): the requests regex
is tried first, else the cache language line; a language outside the dict
raises an uncaught `KeyError`. -/
def processStatsLine (st : SccacheStats) (line : String) : Except PyError SccacheStats :=
  match parseCompileRequestsLine line with
  | some n => .ok ⟨n, st.compilers⟩
  | none =>
    match parseCacheLine line with
    | some (result, lang, count) =>
      match lookupCompiler st.compilers lang with
      | none => .error .keyError
      | some comp =>
        .ok ⟨st.requests, updateCompiler st.compilers lang (setCompilerField comp result count)⟩
    | none => .ok st

/-- The line loop over a whole stats file. -/
def parseStatsLines (st : SccacheStats) : List String → Except PyError SccacheStats
  | [] => .ok st
  | line :: rest =>
    match processStatsLine st line with
    | .error e => .error e
    | .ok st' => parseStatsLines st' rest

/-- Parsing of one `sccache-stats*.txt` file body inside `get_sccache_stats`:
fresh counters for c/cpp/cuda, then the line loop. -/
def parseStatsFile (lines : List String) : Except PyError SccacheStats :=
  parseStatsLines ⟨0, initCompilers⟩ lines

/-! ## Helper lemmas -/

/-- Shape of a successful single-step processing: the watermark never
decreases, and an emitted span ends at or before the new watermark with a
strictly-over-one-second duration. -/
lemma processOneStep_ok {step : Step} {jl : Int} {os : Option Span} {jl' : Int}
    (h : processOneStep step jl = .ok (os, jl')) :
    jl ≤ jl' ∧ ∀ s : Span, os = some s →
      s.end_time ≤ jl' ∧ s.end_time - s.start_time > 1000000000 := by
  unfold processOneStep at h
  cases h1 : date_str_to_epoch step.started_at jl with
  | error e => rw [h1] at h; exact absurd h (by simp)
  | ok ss =>
    rw [h1] at h
    simp only [] at h
    cases h2 : date_str_to_epoch step.completed_at ss with
    | error e => rw [h2] at h; exact absurd h (by simp)
    | ok se =>
      rw [h2] at h
      simp only [] at h
      by_cases hd : se - ss > 1000000000
      · rw [if_pos hd] at h
        simp only [Except.ok.injEq, Prod.mk.injEq] at h
        obtain ⟨hos, hjl⟩ := h
        subst hos; subst hjl
        refine ⟨le_max_right _ _, ?_⟩
        intro s hs
        simp only [Option.some.injEq] at hs
        subst hs
        exact ⟨le_max_left _ _, hd⟩
      · rw [if_neg hd] at h
        simp only [Except.ok.injEq, Prod.mk.injEq] at h
        obtain ⟨hos, hjl⟩ := h
        subst hos; subst hjl
        refine ⟨le_max_right _ _, ?_⟩
        intro s hs
        exact absurd hs (by simp)

/-- Shape of a successful step loop: the watermark never decreases, and every
emitted span ends at or before the final watermark with a
strictly-over-one-second duration. -/
lemma processSteps_ok : ∀ (steps : List Step) (jl : Int) (spans : List Span) (jl' : Int),
    processSteps steps jl = .ok (spans, jl') →
    jl ≤ jl' ∧ ∀ s ∈ spans, s.end_time ≤ jl' ∧ s.end_time - s.start_time > 1000000000 := by
  intro steps
  induction steps with
  | nil =>
    intro jl spans jl' h
    unfold processSteps at h
    simp only [Except.ok.injEq, Prod.mk.injEq] at h
    obtain ⟨hsp, hjl⟩ := h
    subst hsp; subst hjl
    exact ⟨le_refl _, by simp⟩
  | cons st rest ih =>
    intro jl spans jl' h
    unfold processSteps at h
    cases h1 : processOneStep st jl with
    | error e => rw [h1] at h; exact absurd h (by simp)
    | ok p =>
      obtain ⟨os, jl1⟩ := p
      rw [h1] at h
      simp only [] at h
      cases h2 : processSteps rest jl1 with
      | error e => rw [h2] at h; exact absurd h (by simp)
      | ok q =>
        obtain ⟨spans2, jl2⟩ := q
        rw [h2] at h
        simp only [] at h
        simp only [Except.ok.injEq, Prod.mk.injEq] at h
        obtain ⟨hsp, hjl⟩ := h
        subst hsp; subst hjl
        obtain ⟨hle1, hos⟩ := processOneStep_ok h1
        obtain ⟨hle2, hmem⟩ := ih jl1 spans2 jl2 h2
        refine ⟨le_trans hle1 hle2, ?_⟩
        intro s hs
        rcases List.mem_append.mp hs with hs | hs
        · cases os with
          | none => exact absurd hs (by simp)
          | some sp =>
            simp only [Option.toList_some, List.mem_singleton] at hs
            subst hs
            obtain ⟨he, hd⟩ := hos s rfl
            exact ⟨le_trans he hle2, hd⟩
        · exact hmem s hs

/-! ## Claim C2: step-span duration floor -/

/-- C2 counterexample: a step whose resolved interval is exactly one second
(`end - start = 10^9 ns`, i.e. `end - start ≥ 1s` holds) produces no span -
the source condition `(step_end - step_start) / 1e9 > 1` is strict, so the
claimed "span emitted iff duration ≥ 1s" is false at this input. -/
theorem c2_boundary_step_not_emitted :
    date_str_to_epoch (some "2024-01-01T00:00:00Z") 0 = Except.ok 1704067200000000000 ∧
    date_str_to_epoch (some "2024-01-01T00:00:01Z") 1704067200000000000 =
      Except.ok 1704067201000000000 ∧
    (1704067201000000000 : Int) - 1704067200000000000 = 1000000000 ∧
    processOneStep ⟨"s", some "2024-01-01T00:00:00Z", some "2024-01-01T00:00:01Z", some "success"⟩ 0 =
      Except.ok (none, 1704067201000000000) :=
  ⟨rfl, rfl, by decide, rfl⟩

/-- C2 (amended): a step span is emitted iff the resolved duration strictly
exceeds one second (`end - start > 10^9 ns`); steps of duration ≤ 1s produce
no span.  Every span the step loop emits has duration strictly over 1s. -/
theorem c2_step_emitted_iff_strictly_over_one_second :
    (∀ (step : Step) (jl ss se : Int),
        date_str_to_epoch step.started_at jl = .ok ss →
        date_str_to_epoch step.completed_at ss = .ok se →
        processOneStep step jl =
          .ok ((if se - ss > 1000000000 then
                  some ⟨step.name, ss, se, map_conclusion_to_status_code step.conclusion⟩
                else none), max se jl))
    ∧ (∀ (steps : List Step) (jl : Int) (spans : List Span) (jl' : Int),
        processSteps steps jl = .ok (spans, jl') →
        ∀ s ∈ spans, s.end_time - s.start_time > 1000000000) := by
  constructor
  · intro step jl ss se h1 h2
    unfold processOneStep
    rw [h1]
    simp only []
    rw [h2]
    simp only []
    by_cases hd : se - ss > 1000000000
    · rw [if_pos hd, if_pos hd]
    · rw [if_neg hd, if_neg hd]
  · intro steps jl spans jl' h s hs
    exact ((processSteps_ok steps jl spans jl' h).2 s hs).2

/-- C2 witness: the amended theorem applied to a concrete 8-second step. -/
theorem c2_over_one_second_witness :
    processOneStep ⟨"s1", some "2024-01-01T00:00:02Z", some "2024-01-01T00:00:10Z", some "success"⟩ 0 =
      Except.ok (some ⟨"s1", 1704067202000000000, 1704067210000000000, StatusCode.OK⟩,
                 1704067210000000000) := by
  have h := c2_step_emitted_iff_strictly_over_one_second.1
    ⟨"s1", some "2024-01-01T00:00:02Z", some "2024-01-01T00:00:10Z", some "success"⟩
    0 1704067202000000000 1704067210000000000 rfl rfl
  exact h

/-! ## Claim C5: step-span containment in the job span -/

/-- C5 counterexample: a step whose `started_at` predates the job's
`created_at` yields an emitted step span that starts before the job span, so
containment fails for this input job record: the step span is
`[00:00:00, 00:00:05]` while the job span is `[00:00:10, 00:00:20]`. -/
theorem c5_step_span_outside_job_span :
    process_job_blob "wf"
      ⟨"j", 1, some "2024-01-01T00:00:10Z", some "2024-01-01T00:00:10Z",
       some "2024-01-01T00:00:20Z", some "success",
       [⟨"s", some "2024-01-01T00:00:00Z", some "2024-01-01T00:00:05Z", some "success"⟩]⟩
      1704067200000000000 0 =
      Except.ok (some ⟨⟨"Start delay time", 1704067210000000000, 1704067210000000000, .UNSET⟩,
                       [⟨"s", 1704067200000000000, 1704067205000000000, .OK⟩],
                       ⟨"j", 1704067210000000000, 1704067220000000000, .OK⟩⟩, 0) ∧
    ¬ ((1704067210000000000 : Int) ≤ 1704067200000000000) :=
  ⟨rfl, by decide⟩

/-- C5 (amended): the end-side of containment holds for every input - every
emitted step span ends no later than its job span ends, because each step's
end is folded into the job watermark before the job span closes.  (The
start-side fails in general, as the counterexample shows: a step may start
before the job's created time.) -/
theorem c5_step_end_within_job_end :
    ∀ (sn : String) (job : Job) (ft lt : Int) (js : JobSpans) (lt' : Int),
      process_job_blob sn job ft lt = .ok (some js, lt') →
      ∀ s ∈ js.stepSpans, s.end_time ≤ js.jobSpan.end_time := by
  intro sn job ft lt js lt' h s hs
  unfold process_job_blob at h
  by_cases hn : job.name = sn
  · rw [if_pos hn] at h; exact absurd h (by simp)
  · rw [if_neg hn] at h
    cases h1 : date_str_to_epoch job.created_at ft with
    | error e => rw [h1] at h; exact absurd h (by simp)
    | ok jobCreate =>
      rw [h1] at h
      simp only [] at h
      cases h2 : date_str_to_epoch job.started_at ft with
      | error e => rw [h2] at h; exact absurd h (by simp)
      | ok jobStart =>
        rw [h2] at h
        simp only [] at h
        cases h3 : date_str_to_epoch job.completed_at jobStart with
        | error e => rw [h3] at h; exact absurd h (by simp)
        | ok jobLast0 =>
          rw [h3] at h
          simp only [] at h
          by_cases hz : jobStart = 0
          · rw [if_pos hz] at h; exact absurd h (by simp)
          · rw [if_neg hz] at h
            cases h4 : processSteps job.steps jobLast0 with
            | error e => rw [h4] at h; exact absurd h (by simp)
            | ok q =>
              obtain ⟨stepSpans, jobLast⟩ := q
              rw [h4] at h
              simp only [Except.ok.injEq, Prod.mk.injEq, Option.some.injEq] at h
              obtain ⟨hjs, hlt⟩ := h
              subst hjs
              simp only [] at hs
              obtain ⟨-, hmem⟩ := processSteps_ok job.steps jobLast0 stepSpans jobLast h4
              simpa using (hmem s hs).1

/-- C5 witness: the amended theorem applied to a concrete job with one
emitted (8-second) step; its span ends exactly at the job span's end. -/
theorem c5_containment_witness :
    process_job_blob "wf"
      ⟨"j", 1, some "2024-01-01T00:00:00Z", some "2024-01-01T00:00:02Z",
       some "2024-01-01T00:00:10Z", some "success",
       [⟨"s1", some "2024-01-01T00:00:02Z", some "2024-01-01T00:00:10Z", some "success"⟩]⟩
      1704067200000000000 0 =
      Except.ok (some ⟨⟨"Start delay time", 1704067200000000000, 1704067202000000000, .UNSET⟩,
                       [⟨"s1", 1704067202000000000, 1704067210000000000, .OK⟩],
                       ⟨"j", 1704067200000000000, 1704067210000000000, .OK⟩⟩, 0) ∧
    (Span.mk "s1" 1704067202000000000 1704067210000000000 .OK).end_time ≤
      (Span.mk "j" 1704067200000000000 1704067210000000000 .OK).end_time := by
  constructor
  · rfl
  · exact c5_step_end_within_job_end "wf"
      ⟨"j", 1, some "2024-01-01T00:00:00Z", some "2024-01-01T00:00:02Z",
       some "2024-01-01T00:00:10Z", some "success",
       [⟨"s1", some "2024-01-01T00:00:02Z", some "2024-01-01T00:00:10Z", some "success"⟩]⟩
      1704067200000000000 0
      ⟨⟨"Start delay time", 1704067200000000000, 1704067202000000000, .UNSET⟩,
       [⟨"s1", 1704067202000000000, 1704067210000000000, .OK⟩],
       ⟨"j", 1704067200000000000, 1704067210000000000, .OK⟩⟩ 0
      rfl
      (Span.mk "s1" 1704067202000000000 1704067210000000000 .OK)
      (by simp)

/-! ## Claim C1: root span end vs. maximum span end -/

/-- C1: the root watermark is never advanced.  `process_job_blob` returns its
`last_timestamp` argument unchanged on every path (the comment at line 346
says the latest observed timestamp is tracked, and `main` reassigns
`last_timestamp` from the return value, but no path returns anything else),
so the root span always ends at `date_str_to_epoch(jobs[0]["completed_at"], 0)`.
Concretely: two jobs, the second ending one minute after the first; the root
span ends at the first job's completion (00:01:00) while the second job's
span ends at 00:02:00, so the root end is not the maximum span end. -/
theorem c1_root_end_not_advanced :
    (mainRun "wf"
      [⟨"a", 1, some "2024-01-01T00:00:00Z", some "2024-01-01T00:00:00Z",
        some "2024-01-01T00:01:00Z", some "success", []⟩,
       ⟨"b", 2, some "2024-01-01T00:00:00Z", some "2024-01-01T00:00:10Z",
        some "2024-01-01T00:02:00Z", some "success", []⟩]).map
      (fun r => (r.2.end_time, r.1.map (fun js => js.jobSpan.end_time))) =
      Except.ok (1704067260000000000, [1704067260000000000, 1704067320000000000]) ∧
    (1704067260000000000 : Int) < 1704067320000000000 :=
  ⟨rfl, by decide⟩

/-! ## Claim C6: skipping of jobs with no start information -/

/-- C6 counterexample: a job whose `created_at` and `started_at` are both
absent is NOT skipped when the run's `first_timestamp` is nonzero - the
missing `started_at` falls back to `first_timestamp`, so `job_start` is not
the sentinel 0 and a job span and delay span are emitted. -/
theorem c6_absent_timestamps_job_processed :
    (process_job_blob "wf" ⟨"b", 1, none, none, none, none, []⟩
        1704067200000000000 7).map (fun p => (p.1.isSome, p.2)) =
      Except.ok (true, 7) :=
  rfl

/-- C6 (amended): every job whose resolved `job_start` is the sentinel 0 is
skipped - no spans, no error, `last_timestamp` returned unchanged, so
processing of the remaining jobs continues.  Absent `created_at`/`started_at`
do not by themselves produce the sentinel: `started_at` falls back to the
run-level `first_timestamp` (line 252), and the counterexample shows a
both-absent job with a nonzero `first_timestamp` being processed normally. -/
theorem c6_zero_start_job_skipped :
    ∀ (sn : String) (job : Job) (ft lt c jl : Int),
      date_str_to_epoch job.created_at ft = .ok c →
      date_str_to_epoch job.started_at ft = .ok 0 →
      date_str_to_epoch job.completed_at 0 = .ok jl →
      process_job_blob sn job ft lt = .ok (none, lt) := by
  intro sn job ft lt c jl h1 h2 h3
  unfold process_job_blob
  by_cases hn : job.name = sn
  · rw [if_pos hn]
  · rw [if_neg hn, h1]
    simp only []
    rw [h2]
    simp only []
    rw [h3]
    simp only []
    simp

/-- C6 witness: a job with every timestamp absent in a run whose
`first_timestamp` is 0 is skipped without error. -/
theorem c6_skip_witness :
    process_job_blob "wf" ⟨"b", 1, none, none, none, none, []⟩ 0 5 =
      Except.ok (none, 5) :=
  c6_zero_start_job_skipped "wf" ⟨"b", 1, none, none, none, none, []⟩ 0 5 0 0 rfl rfl rfl

/-! ## Claim C7: totality of the status mapper -/

/-- C7: `map_conclusion_to_status_code` maps "success" to OK, "failure" to
ERROR, and every other value - including `None` and any other string - to
UNSET. -/
theorem c7_status_mapper_total :
    map_conclusion_to_status_code (some "success") = .OK ∧
    map_conclusion_to_status_code (some "failure") = .ERROR ∧
    ∀ c : Option String, c ≠ some "success" → c ≠ some "failure" →
      map_conclusion_to_status_code c = .UNSET := by
  refine ⟨rfl, rfl, ?_⟩
  intro c h1 h2
  unfold map_conclusion_to_status_code
  rw [if_neg h1, if_neg h2]

/-- C7 witness: the mapper at "cancelled", "skipped", the empty string, and
`None`. -/
theorem c7_status_mapper_witness :
    map_conclusion_to_status_code (some "cancelled") = .UNSET ∧
    map_conclusion_to_status_code (some "skipped") = .UNSET ∧
    map_conclusion_to_status_code (some "") = .UNSET ∧
    map_conclusion_to_status_code none = .UNSET :=
  ⟨c7_status_mapper_total.2.2 (some "cancelled") (by decide) (by decide),
   c7_status_mapper_total.2.2 (some "skipped") (by decide) (by decide),
   c7_status_mapper_total.2.2 (some "") (by decide) (by decide),
   c7_status_mapper_total.2.2 none (by decide) (by decide)⟩

/-! ## Claim C4: recovery from malformed timestamps and attribute lines -/

/-- C4 counterexample: a non-empty malformed timestamp string does NOT return
the supplied fallback - `datetime.strptime` raises an uncaught `ValueError`
(there is no try/except in `date_str_to_epoch`), aborting the batch. -/
theorem c4_malformed_timestamp_aborts :
    date_str_to_epoch (some "not-a-date") 42 = Except.error PyError.valueError ∧
    date_str_to_epoch (some "not-a-date") 42 ≠ Except.ok 42 :=
  ⟨rfl, fun h => Except.noConfusion
    ((rfl : date_str_to_epoch (some "not-a-date") 42 =
        Except.error PyError.valueError).symm.trans h)⟩

/-- C4 (amended): the fallback is returned only for absent/empty timestamp
strings; every non-empty ASCII string the format parser rejects raises
`ValueError`, which propagates.  (The ASCII hypothesis marks the region where
the parser model is exact: outside it, CPython's `\d` would also accept
Unicode digits.)  Likewise an attribute line without `=` makes the whole
attribute walk raise `ValueError` (from tuple unpacking) instead of being
recovered. -/
theorem c4_parse_errors_propagate :
    (∀ (s : String) (fb : Int), s ≠ "" → (∀ c ∈ s.data, c.toNat < 128) →
        parseTimestamp s = none →
        date_str_to_epoch (some s) fb = .error .valueError)
    ∧ (∀ fb : Int,
        date_str_to_epoch none fb = .ok fb ∧ date_str_to_epoch (some "") fb = .ok fb)
    ∧ (∀ (acc m : List (String × String)) (pre : List String) (line : String)
          (post : List String),
        parseAttrLinesAux acc pre = .ok m → line.data.contains '=' = false →
        parseAttrLinesAux acc (pre ++ line :: post) = .error .valueError) := by
  refine ⟨?_, ?_, ?_⟩
  · intro s fb hs hascii hp
    unfold date_str_to_epoch
    simp only []
    rw [if_neg hs, hp]
  · intro fb
    exact ⟨rfl, rfl⟩
  · intro acc m pre line post hpre hline
    induction pre generalizing acc with
    | nil =>
      simp only [List.nil_append]
      unfold parseAttrLinesAux
      have hsplit : splitEqLine line = .error .valueError := by
        unfold splitEqLine
        rw [hline]
        simp
      rw [hsplit]
    | cons p pre ih =>
      simp only [List.cons_append]
      unfold parseAttrLinesAux at hpre ⊢
      cases hsp : splitEqLine p with
      | error e => rw [hsp] at hpre; exact absurd hpre (by simp)
      | ok kv =>
        obtain ⟨k, v⟩ := kv
        rw [hsp] at hpre
        simp only [] at hpre ⊢
        exact ih _ hpre

/-- C4 witness: the amended theorem at a malformed timestamp, an absent
timestamp, and an attribute file whose second line has no `=`. -/
theorem c4_recovery_witness :
    date_str_to_epoch (some "bogus") 7 = Except.error PyError.valueError ∧
    date_str_to_epoch none 7 = Except.ok 7 ∧
    parseAttrLinesAux [] (["a=1"] ++ "nodelimiter" :: []) = Except.error PyError.valueError :=
  ⟨c4_parse_errors_propagate.1 "bogus" 7 (by decide) (by decide) rfl,
   (c4_parse_errors_propagate.2.1 7).1,
   c4_parse_errors_propagate.2.2 [] [("a", "1")] ["a=1"] "nodelimiter" [] rfl rfl⟩

/-! ## Claim C9: cache-rate safety at zero requests -/

/-- C9: whenever the total request count is 0, the guarded rate expressions
return 0 without dividing - for the per-language `Compiler` counters and for
the aggregate `SccacheStats` alike. -/
theorem c9_zero_requests_zero_rates :
    (∀ c : Compiler, c.requests = 0 →
      c.hit_rate = 0 ∧ c.miss_rate = 0 ∧ c.error_rate = 0)
    ∧ (∀ st : SccacheStats, st.requests = 0 →
      st.hit_rate = 0 ∧ st.miss_rate = 0 ∧ st.error_rate = 0) := by
  constructor
  · intro c h
    unfold Compiler.hit_rate Compiler.miss_rate Compiler.error_rate
    rw [h]
    simp
  · intro st h
    unfold SccacheStats.hit_rate SccacheStats.miss_rate SccacheStats.error_rate
    rw [h]
    simp

/-- C9 witness: zero-counter values on both shapes. -/
theorem c9_zero_rates_witness :
    Compiler.hit_rate ⟨0, 0, 0⟩ = 0 ∧ SccacheStats.hit_rate ⟨0, initCompilers⟩ = 0 :=
  ⟨(c9_zero_requests_zero_rates.1 ⟨0, 0, 0⟩ rfl).1,
   (c9_zero_requests_zero_rates.2 ⟨0, initCompilers⟩ rfl).1⟩

/-! ## Hex-digit lemmas for the identity generator -/

/-- The function `hexVal` inverts `hexChar` below 16. -/
lemma hexVal_hexChar {m : Nat} (h : m < 16) : hexVal (hexChar m) = m := by
  have hall : ∀ n < 16, hexVal (hexChar n) = n := by decide
  exact hall m h

/-- Every character of a rendered hex string is `hexChar m` for some m < 16. -/
lemma mem_renderHex {bs : List Nat} {c : Char} (h : c ∈ (renderHex bs).data) :
    ∃ m, m < 16 ∧ c = hexChar m := by
  unfold renderHex at h
  change c ∈ bs.flatMap byteHex at h
  rw [List.mem_flatMap] at h
  obtain ⟨b, hb, hc⟩ := h
  unfold byteHex at hc
  simp only [List.mem_cons, List.mem_singleton, List.not_mem_nil, or_false] at hc
  rcases hc with hc | hc
  · exact ⟨b / 16 % 16, Nat.mod_lt _ (by norm_num), hc⟩
  · exact ⟨b % 16, Nat.mod_lt _ (by norm_num), hc⟩

/-- Accumulator bound for hex parsing. -/
lemma hexToNatAux_lt : ∀ (cs : List Char) (acc : Nat), (∀ c ∈ cs, hexVal c < 16) →
    hexToNatAux acc cs < (acc + 1) * 16 ^ cs.length := by
  intro cs
  induction cs with
  | nil =>
    intro acc h
    simp [hexToNatAux]
  | cons c cs ih =>
    intro acc h
    unfold hexToNatAux
    have hc : hexVal c < 16 := h c (by simp)
    have hrec := ih (acc * 16 + hexVal c) (fun x hx => h x (by simp [hx]))
    have hle : acc * 16 + hexVal c + 1 ≤ (acc + 1) * 16 := by omega
    calc hexToNatAux (acc * 16 + hexVal c) cs
        < (acc * 16 + hexVal c + 1) * 16 ^ cs.length := hrec
      _ ≤ ((acc + 1) * 16) * 16 ^ cs.length := Nat.mul_le_mul_right _ hle
      _ = (acc + 1) * 16 ^ (c :: cs).length := by
          simp [List.length_cons, pow_succ]
          ring

/-- A hex string of at most 16 rendered digits parses below 2^64. -/
lemma hexToNat_take16_lt (bs : List Nat) :
    hexToNat (((renderHex bs).data).take 16) < 2 ^ 64 := by
  have hhex : ∀ c ∈ ((renderHex bs).data).take 16, hexVal c < 16 := by
    intro c hc
    obtain ⟨m, hm, rfl⟩ := mem_renderHex (List.take_subset 16 _ hc)
    rw [hexVal_hexChar hm]
    exact hm
  have hlen : (((renderHex bs).data).take 16).length ≤ 16 := by
    simp [List.length_take]
  have h1 : hexToNat (((renderHex bs).data).take 16) <
      16 ^ (((renderHex bs).data).take 16).length := by
    simpa [hexToNat] using hexToNatAux_lt _ 0 hhex
  calc hexToNat (((renderHex bs).data).take 16)
      < 16 ^ (((renderHex bs).data).take 16).length := h1
    _ ≤ 16 ^ 16 := Nat.pow_le_pow_right (by norm_num) hlen
    _ = 2 ^ 64 := by norm_num

/-! ## Claim C8: deterministic identifiers -/

/-- C8: `generate_span_id` is a pure function of the generator's
`(trace_id, job_name, step_name)` state - two generators agreeing on those
three fields produce byte-identical span ids - `generate_trace_id` always
returns the stored trace id, and every generated span id fits in 64 bits
(16 hex digits). -/
theorem c8_span_id_deterministic :
    ∀ g g' : RapidsSpanIdGenerator,
      g.trace_id = g'.trace_id → g.job_name = g'.job_name → g.step_name = g'.step_name →
      generate_span_id g = generate_span_id g' ∧
      generate_trace_id g = g.trace_id ∧
      generate_span_id g < 2 ^ 64 := by
  intro g g' h1 h2 h3
  obtain ⟨t, j, s⟩ := g
  obtain ⟨t', j', s'⟩ := g'
  simp only [] at h1 h2 h3
  subst h1
  subst h2
  subst h3
  exact ⟨rfl, rfl, hexToNat_take16_lt _⟩

/-- C8 witness: two identically configured generators at a concrete state. -/
theorem c8_deterministic_witness :
    generate_span_id ⟨123456, "build / linux", some "checkout"⟩ =
      generate_span_id ⟨123456, "build / linux", some "checkout"⟩ ∧
    generate_trace_id ⟨123456, "build / linux", some "checkout"⟩ = 123456 ∧
    generate_span_id ⟨123456, "build / linux", some "checkout"⟩ < 2 ^ 64 :=
  c8_span_id_deterministic ⟨123456, "build / linux", some "checkout"⟩
    ⟨123456, "build / linux", some "checkout"⟩ rfl rfl rfl

/-! ## Claim C3: shape of the derived trace id -/

/-- Length of a rendered hex string: two characters per byte. -/
lemma renderHex_length (bs : List Nat) : (renderHex bs).length = 2 * bs.length := by
  show (bs.flatMap byteHex).length = 2 * bs.length
  induction bs with
  | nil => rfl
  | cons b bs ih =>
    simp only [List.flatMap_cons, List.length_append, ih, byteHex]
    simp [List.length_cons]
    ring

/-- The digest always has 32 bytes. -/
lemma sha256_length (msg : List Nat) : (sha256 msg).length = 32 := rfl

/-- C3 (spec-modelled): the trace id is the first 16 digest bytes of
SHA-256 of `run_url + "+" + run_attempt`, rendered as exactly 32 lowercase
hex characters. -/
theorem c3_trace_id_shape :
    ∀ runUrl runAttempt : String,
      traceIdHexStr runUrl runAttempt =
        renderHex ((sha256 (strBytes (runUrl ++ "+" ++ runAttempt))).take 16) ∧
      (traceIdHexStr runUrl runAttempt).length = 32 ∧
      (traceIdHexStr runUrl runAttempt).data.all isLowerHexDigit = true := by
  intro u a
  refine ⟨rfl, ?_, ?_⟩
  · unfold traceIdHexStr
    rw [renderHex_length, List.length_take, sha256_length]
    norm_num
  · rw [List.all_eq_true]
    intro c hc
    obtain ⟨m, hm, rfl⟩ := mem_renderHex hc
    have hall : ∀ n < 16, isLowerHexDigit (hexChar n) = true := by decide
    exact hall m hm

/-! ## Claim C10: unknown sccache language aborts the parse -/

/-- Updating a compiler entry never changes the key list. -/
lemma updateCompiler_keys (m : List (String × Compiler)) (k : String) (c : Compiler) :
    (updateCompiler m k c).map Prod.fst = m.map Prod.fst := by
  unfold updateCompiler
  induction m with
  | nil => rfl
  | cons p rest ih =>
    simp only [List.map_cons, ih]
    by_cases h : p.1 = k <;> simp [h]

/-- One line of processing never changes the compiler key list. -/
lemma processStatsLine_keys {st st' : SccacheStats} {line : String}
    (h : processStatsLine st line = .ok st') :
    st'.compilers.map Prod.fst = st.compilers.map Prod.fst := by
  unfold processStatsLine at h
  cases h1 : parseCompileRequestsLine line with
  | some n =>
    rw [h1] at h
    simp only [Except.ok.injEq] at h
    subst h
    rfl
  | none =>
    rw [h1] at h
    simp only [] at h
    cases h2 : parseCacheLine line with
    | some t =>
      obtain ⟨res, lang, cnt⟩ := t
      rw [h2] at h
      simp only [] at h
      cases h3 : lookupCompiler st.compilers lang with
      | none => rw [h3] at h; exact absurd h (by simp)
      | some comp =>
        rw [h3] at h
        simp only [Except.ok.injEq] at h
        subst h
        exact updateCompiler_keys _ _ _
    | none =>
      rw [h2] at h
      simp only [Except.ok.injEq] at h
      subst h
      rfl

/-- The whole line loop never changes the compiler key list. -/
lemma parseStatsLines_keys : ∀ (ls : List String) (st st' : SccacheStats),
    parseStatsLines st ls = .ok st' → st'.compilers.map Prod.fst = st.compilers.map Prod.fst := by
  intro ls
  induction ls with
  | nil =>
    intro st st' h
    unfold parseStatsLines at h
    simp only [Except.ok.injEq] at h
    subst h
    rfl
  | cons l ls ih =>
    intro st st' h
    unfold parseStatsLines at h
    cases h1 : processStatsLine st l with
    | error e => rw [h1] at h; exact absurd h (by simp)
    | ok st1 =>
      rw [h1] at h
      simp only [] at h
      exact (ih st1 st' h).trans (processStatsLine_keys h1)

/-- A key outside the key list is not found. -/
lemma lookupCompiler_none {m : List (String × Compiler)} {k : String}
    (h : k ∉ m.map Prod.fst) : lookupCompiler m k = none := by
  unfold lookupCompiler
  have hnone : List.find? (fun p => p.1 = k) m = none := by
    rw [List.find?_eq_none]
    intro p hp
    simp only [decide_eq_true_eq]
    intro hk
    exact h (List.mem_map.mpr ⟨p, hp, hk⟩)
  rw [hnone]
  rfl

/-- Unfolding equation of the line loop at a cons cell. -/
lemma parseStatsLines_cons (st : SccacheStats) (l : String) (ls : List String) :
    parseStatsLines st (l :: ls) =
      match processStatsLine st l with
      | Except.error e => Except.error e
      | Except.ok st1 => parseStatsLines st1 ls := rfl

/-- The line loop splits across list append. -/
lemma parseStatsLines_append (pre rest : List String) : ∀ st : SccacheStats,
    parseStatsLines st (pre ++ rest) =
      match parseStatsLines st pre with
      | Except.error e => Except.error e
      | Except.ok st' => parseStatsLines st' rest := by
  induction pre with
  | nil => intro st; rfl
  | cons l pre ih =>
    intro st
    rw [List.cons_append, parseStatsLines_cons, parseStatsLines_cons]
    cases processStatsLine st l with
    | error e => rfl
    | ok st1 => exact ih st1

/-- A matched cache line begins with the characters `C`, `a`. -/
lemma parseCacheLine_shape {line : String} {t : String × String × Nat}
    (h : parseCacheLine line = some t) : ∃ rest, line.data = 'C' :: 'a' :: rest := by
  unfold parseCacheLine at h
  cases hd : line.data with
  | nil => rw [hd] at h; simp [expectLit, cachePat] at h
  | cons c1 l1 =>
    cases l1 with
    | nil =>
      rw [hd] at h
      by_cases h1 : c1 = 'C'
      · simp [expectLit, cachePat, h1] at h
      · simp [expectLit, cachePat, h1] at h
    | cons c2 l2 =>
      rw [hd] at h
      by_cases h1 : c1 = 'C'
      · by_cases h2 : c2 = 'a'
        · exact ⟨l2, by rw [h1, h2]⟩
        · simp [expectLit, cachePat, h1, h2] at h
      · simp [expectLit, cachePat, h1] at h

/-- A line matched by the cache-language regex cannot also match the
(case-insensitive) `Compile requests` regex: their second characters differ. -/
lemma parseCacheLine_not_requests {line : String} {t : String × String × Nat}
    (h : parseCacheLine line = some t) : parseCompileRequestsLine line = none := by
  obtain ⟨rest, hd⟩ := parseCacheLine_shape h
  unfold parseCompileRequestsLine
  rw [hd]
  simp [expectCI, compilePat, show 'C'.toLower = 'c' from by decide,
        show ¬('a'.toLower = 'o') from by decide]

/-- C10: the compiler table is initialized only for the languages c, cpp, and
cuda; whenever a line of a stats file matches the cache-language pattern with
a language outside that table, the dict lookup raises an uncaught `KeyError`,
so parsing the file aborts instead of being recovered. -/
theorem c10_unknown_language_aborts :
    initCompilers.map Prod.fst = ["c", "cpp", "cuda"] ∧
    ∀ (pre : List String) (line : String) (post : List String) (st : SccacheStats)
      (result lang : String) (count : Nat),
      parseStatsLines ⟨0, initCompilers⟩ pre = .ok st →
      parseCacheLine line = some (result, lang, count) →
      lang ∉ ["c", "cpp", "cuda"] →
      parseStatsFile (pre ++ line :: post) = .error .keyError := by
  refine ⟨rfl, ?_⟩
  intro pre line post st result lang count hpre hline hlang
  unfold parseStatsFile
  rw [parseStatsLines_append pre (line :: post) ⟨0, initCompilers⟩, hpre]
  simp only []
  have hkeys : st.compilers.map Prod.fst = ["c", "cpp", "cuda"] :=
    parseStatsLines_keys pre ⟨0, initCompilers⟩ st hpre
  have hlook : lookupCompiler st.compilers lang = none :=
    lookupCompiler_none (by rw [hkeys]; exact hlang)
  have hps : processStatsLine st line = .error .keyError := by
    unfold processStatsLine
    rw [parseCacheLine_not_requests hline]
    simp only []
    rw [hline]
    simp only []
    rw [hlook]
  rw [parseStatsLines_cons, hps]

/-- C10 witness: a stats file whose second line reports a `rust` cache
result; parsing aborts with the `KeyError`. -/
theorem c10_keyerror_witness :
    parseStatsFile (["Compile requests 10"] ++ "Cache hits (rust) 5" :: []) =
      Except.error PyError.keyError :=
  c10_unknown_language_aborts.2 ["Compile requests 10"] "Cache hits (rust) 5" []
    ⟨10, initCompilers⟩ "hits" "rust" 5 rfl rfl (by decide)
